import Mathlib

/-!
# Verification of the burrow_exporter Burrow API client

Shallow embedding of `src/burrow_exporter/client.go` (package `burrow_exporter`).

The client is a thin typed HTTP/JSON layer:
* `buildUrl` parses the configured base URL (`net/url.Parse`) and joins the
  endpoint path onto its path with Go's `path.Join`;
* `getJsonReq` performs a GET and decodes the body as JSON into a typed
  destination, closing the body via `defer` on both exits;
* each typed operation builds its endpoint URL, calls `getJsonReq`, then
  checks the decoded envelope's `Error` flag and, when set, returns
  `errors.New(Message)` with a nil result.

Embedding choices (each noted again at the definition it concerns):
* Go's `url.Parse` is external standard-library code; its outcome on the
  configured base address is abstracted as an `Except String GoUrl` value held
  by the client (the parse of a fixed string is deterministic, so storing its
  outcome is faithful).  `GoUrl` keeps the fields the client touches and
  `GoUrl.toString` reproduces `url.URL.String()` for ordinary
  `scheme://host/path?query#fragment` addresses (no opaque/userinfo forms,
  which cannot arise from the addresses this client is configured with).
* Go's `path.Join` / `path.Clean` (external standard library) are embedded in
  full as the segment-stack formulation of the documented lexical algorithm.
* The HTTP transport is a function `String → Except String Body`: for a URL it
  either fails (the `err` of `http.Client.Get`) or delivers a response body.
  A delivered body is `Body.malformed` (not valid JSON) or `Body.json j`.
* `encoding/json` decoding into each response struct is embedded per struct,
  following Go's rules: absent or `null` fields keep the zero value, unknown
  keys are ignored, a type mismatch makes `Decode` return a non-nil error
  (modelled as `none`; Go's partial population of the destination is not
  observable by the client's callers, which discard the value on error).
* Operations additionally return a trace of transport events (`get`,
  `closeBody`) so that resource-release behaviour is expressible.
-/

set_option autoImplicit false

namespace BurrowSpec

/-! ## Go `path.Clean` and `path.Join` (standard library `path`) -/

/-- Split a character list on `'/'`, keeping empty segments
(`strings.Split`-style); every returned segment is slash-free. -/
def splitSlash : List Char → List (List Char)
  | [] => [[]]
  | c :: rest =>
    if c = '/' then [] :: splitSlash rest
    else
      match splitSlash rest with
      | s :: tl => (c :: s) :: tl
      | [] => [[c]]

/-- One step of `path.Clean`'s element processing: empty and `"."` segments
are dropped, `".."` pops the last kept segment (kept literally at the start of
a relative path), anything else is kept.  The stack holds kept segments in
reverse order. -/
def processSeg (rooted : Bool) (stack : List (List Char)) (seg : List Char) :
    List (List Char) :=
  if seg = [] ∨ seg = ['.'] then stack
  else if seg = ['.', '.'] then
    match stack with
    | [] => if rooted then [] else [['.', '.']]
    | top :: rest =>
      if rooted = false ∧ top = ['.', '.'] then ['.', '.'] :: top :: rest
      else rest
  else seg :: stack

/-- The kept segments of `path.Clean`, in order. -/
def cleanSegs (rooted : Bool) (segs : List (List Char)) : List (List Char) :=
  (segs.foldl (processSeg rooted) []).reverse

/-- Interleave `'/'` between segments. -/
def joinSegs : List (List Char) → List Char
  | [] => []
  | s :: rest =>
    match rest with
    | [] => s
    | _ :: _ => s ++ '/' :: joinSegs rest

/-- Go `path.Clean`, segment-stack formulation of the documented lexical
algorithm: iteratively drop `"."` and empty elements, resolve `".."`,
return `"."` for an empty result and keep a leading `'/'` for rooted paths. -/
def goClean (p : List Char) : List Char :=
  if p = [] then ['.']
  else if p.head? = some '/' then '/' :: joinSegs (cleanSegs true (splitSlash p))
  else if cleanSegs false (splitSlash p) = [] then ['.']
  else joinSegs (cleanSegs false (splitSlash p))

/-- Go `path.Join` for exactly two elements (the only arity `client.go` uses):
join with `'/'` starting from the first non-empty element, then `Clean`. -/
def goJoin (a b : List Char) : List Char :=
  if a = [] then
    if b = [] then [] else goClean b
  else goClean (a ++ '/' :: b)

/-- `path.Join` on `String`s. -/
def pathJoin (a b : String) : String :=
  String.mk (goJoin a.data b.data)

/-- Does a character list contain two consecutive slashes?  Used to state the
"no double slashes" part of the URL-construction property. -/
def hasDS : List Char → Bool
  | a :: b :: rest => (a == '/' && b == '/') || hasDS (b :: rest)
  | _ => false

/-- A path segment kept by `goClean`: non-empty and slash-free. -/
def GoodSeg (s : List Char) : Prop := s ≠ [] ∧ ∀ c ∈ s, c ≠ '/'

/-! ## `net/url.URL` -/

/-- The parse result of `net/url.Parse` on an ordinary absolute
`scheme://host/path?query#fragment` address, restricted to the fields this
client reads or writes.  `host` includes the port. -/
structure GoUrl where
  scheme : String
  host : String
  path : String
  rawQuery : String
  fragment : String
deriving Repr, DecidableEq

/-- `url.URL.String()` for such an address: scheme, `"://"`, host, path, then
the raw query after `'?'` and the fragment after `'#'`, each only when
non-empty. -/
def GoUrl.toString (u : GoUrl) : String :=
  u.scheme ++ "://" ++ u.host ++ u.path
    ++ (if u.rawQuery = "" then "" else "?" ++ u.rawQuery)
    ++ (if u.fragment = "" then "" else "#" ++ u.fragment)

/-- The URL `buildUrl` produces from a successfully parsed base: the base with
the endpoint `path.Join`ed onto its path. -/
def builtUrl (u : GoUrl) (endpoint : String) : String :=
  GoUrl.toString { u with path := pathJoin u.path endpoint }

/-! ## JSON values and response bodies -/

/-- A JSON value (numbers restricted to integers, which is all the Burrow
payloads carry; no claim depends on float semantics). -/
inductive Json where
  | null
  | bool (b : Bool)
  | num (n : Int)
  | str (s : String)
  | arr (xs : List Json)
  | obj (fields : List (String × Json))
deriving Repr

/-- What the transport delivered: a stream that is not valid JSON, or a JSON
value. -/
inductive Body where
  | malformed
  | json (j : Json)
deriving Repr

/-! ## Response types (`client.go` lines 33–103)

Go's embedded `BurrowResp` is kept as an explicit `burrow` field; its JSON
keys still live at the top level of the object, as with Go embedding. -/

structure BurrowResp where
  error : Bool
  message : String
deriving Repr, DecidableEq

structure ClustersResp where
  burrow : BurrowResp
  clusters : List String
deriving Repr, DecidableEq

structure ClusterDetails where
  brokers : List String
  zookeepers : List String
  brokerPort : Int
  zookeeperPort : Int
  offsetsTopic : String
deriving Repr, DecidableEq

structure ClusterDetailsResp where
  burrow : BurrowResp
  cluster : ClusterDetails
deriving Repr, DecidableEq

structure ConsumerGroupsResp where
  burrow : BurrowResp
  consumerGroups : List String
deriving Repr, DecidableEq

structure ConsumerGroupTopicsResp where
  burrow : BurrowResp
  topics : List String
deriving Repr, DecidableEq

structure ConsumerGroupTopicDetailsResp where
  burrow : BurrowResp
  offsets : List Int
deriving Repr, DecidableEq

structure Offset where
  offset : Int
  timestamp : Int
  lag : Int
deriving Repr, DecidableEq

structure Partition where
  topic : String
  partition : Int
  status : String
  start : Offset
  ends : Offset
deriving Repr, DecidableEq

structure ConsumerGroupStatus where
  cluster : String
  group : String
  status : String
  complete : Bool
  maxLag : Partition
  partitions : List Partition
  totalLag : Int
deriving Repr, DecidableEq

structure ConsumerGroupStatusResp where
  burrow : BurrowResp
  status : ConsumerGroupStatus
deriving Repr, DecidableEq

structure ClusterTopicDetailsResp where
  burrow : BurrowResp
  offsets : List Int
deriving Repr, DecidableEq

/-! ## `encoding/json` decoding into the response structs

Per-struct embedding of `json.Decoder.Decode(dest)`: an object's unknown keys
are ignored; a known key that is absent or bound to `null` leaves the field at
its zero value; a bound value of the wrong shape makes `Decode` return a
non-nil error (`none` here); a top-level `null` leaves the whole destination
at its zero value.  Duplicate keys are looked up first-match; no claim and no
counterexample involves a duplicate key. -/

/-- Zero values, matching Go's zero initialisation of each struct. -/
def zeroBurrowResp : BurrowResp := { error := false, message := "" }

def zeroClusterDetails : ClusterDetails :=
  { brokers := [], zookeepers := [], brokerPort := 0, zookeeperPort := 0,
    offsetsTopic := "" }

def zeroOffset : Offset := { offset := 0, timestamp := 0, lag := 0 }

def zeroPartition : Partition :=
  { topic := "", partition := 0, status := "", start := zeroOffset,
    ends := zeroOffset }

def zeroConsumerGroupStatus : ConsumerGroupStatus :=
  { cluster := "", group := "", status := "", complete := false,
    maxLag := zeroPartition, partitions := [], totalLag := 0 }

/-- Decode one field of an object: absent or `null` keeps the zero value. -/
def getField {α : Type} (fields : List (String × Json)) (key : String)
    (dec : Json → Option α) (dflt : α) : Option α :=
  match fields.lookup key with
  | none => some dflt
  | some Json.null => some dflt
  | some j => dec j

def decBool : Json → Option Bool
  | Json.bool b => some b
  | _ => none

def decString : Json → Option String
  | Json.str s => some s
  | _ => none

def decInt : Json → Option Int
  | Json.num n => some n
  | _ => none

/-- An element of a `[]string`: `null` unmarshals as a no-op on the zero
string. -/
def decStringElem : Json → Option String
  | Json.str s => some s
  | Json.null => some ""
  | _ => none

def decStringList : Json → Option (List String)
  | Json.arr xs => xs.mapM decStringElem
  | _ => none

def decIntElem : Json → Option Int
  | Json.num n => some n
  | Json.null => some 0
  | _ => none

def decIntList : Json → Option (List Int)
  | Json.arr xs => xs.mapM decIntElem
  | _ => none

/-- The embedded `BurrowResp` keys, read from the same top-level object. -/
def decBurrowFields (fields : List (String × Json)) : Option BurrowResp := do
  let e ← getField fields "error" decBool false
  let m ← getField fields "message" decString ""
  pure { error := e, message := m }

def decClustersResp : Json → Option ClustersResp
  | Json.null => some { burrow := zeroBurrowResp, clusters := [] }
  | Json.obj fields => do
    let b ← decBurrowFields fields
    let cs ← getField fields "clusters" decStringList []
    pure { burrow := b, clusters := cs }
  | _ => none

def decClusterDetails : Json → Option ClusterDetails
  | Json.null => some zeroClusterDetails
  | Json.obj fields => do
    let bs ← getField fields "brokers" decStringList []
    let zs ← getField fields "zookeepers" decStringList []
    let bp ← getField fields "broker_port" decInt 0
    let zp ← getField fields "zookeeper_port" decInt 0
    let ot ← getField fields "offsets_topic" decString ""
    pure { brokers := bs, zookeepers := zs, brokerPort := bp,
           zookeeperPort := zp, offsetsTopic := ot }
  | _ => none

def decClusterDetailsResp : Json → Option ClusterDetailsResp
  | Json.null => some { burrow := zeroBurrowResp, cluster := zeroClusterDetails }
  | Json.obj fields => do
    let b ← decBurrowFields fields
    let c ← getField fields "cluster" decClusterDetails zeroClusterDetails
    pure { burrow := b, cluster := c }
  | _ => none

def decConsumerGroupsResp : Json → Option ConsumerGroupsResp
  | Json.null => some { burrow := zeroBurrowResp, consumerGroups := [] }
  | Json.obj fields => do
    let b ← decBurrowFields fields
    let cs ← getField fields "consumers" decStringList []
    pure { burrow := b, consumerGroups := cs }
  | _ => none

def decConsumerGroupTopicsResp : Json → Option ConsumerGroupTopicsResp
  | Json.null => some { burrow := zeroBurrowResp, topics := [] }
  | Json.obj fields => do
    let b ← decBurrowFields fields
    let ts ← getField fields "topics" decStringList []
    pure { burrow := b, topics := ts }
  | _ => none

def decConsumerGroupTopicDetailsResp : Json → Option ConsumerGroupTopicDetailsResp
  | Json.null => some { burrow := zeroBurrowResp, offsets := [] }
  | Json.obj fields => do
    let b ← decBurrowFields fields
    let os ← getField fields "offsets" decIntList []
    pure { burrow := b, offsets := os }
  | _ => none

def decOffset : Json → Option Offset
  | Json.null => some zeroOffset
  | Json.obj fields => do
    let o ← getField fields "offset" decInt 0
    let t ← getField fields "timestamp" decInt 0
    let l ← getField fields "lag" decInt 0
    pure { offset := o, timestamp := t, lag := l }
  | _ => none

def decPartition : Json → Option Partition
  | Json.null => some zeroPartition
  | Json.obj fields => do
    let tp ← getField fields "topic" decString ""
    let pt ← getField fields "partition" decInt 0
    let st ← getField fields "status" decString ""
    let sa ← getField fields "start" decOffset zeroOffset
    let en ← getField fields "end" decOffset zeroOffset
    pure { topic := tp, partition := pt, status := st, start := sa, ends := en }
  | _ => none

def decPartitionList : Json → Option (List Partition)
  | Json.arr xs => xs.mapM decPartition
  | _ => none

def decConsumerGroupStatus : Json → Option ConsumerGroupStatus
  | Json.null => some zeroConsumerGroupStatus
  | Json.obj fields => do
    let cl ← getField fields "cluster" decString ""
    let gr ← getField fields "group" decString ""
    let st ← getField fields "status" decString ""
    let co ← getField fields "complete" decBool false
    let ml ← getField fields "maxlag" decPartition zeroPartition
    let ps ← getField fields "partitions" decPartitionList []
    let tl ← getField fields "total_lag" decInt 0
    pure { cluster := cl, group := gr, status := st, complete := co,
           maxLag := ml, partitions := ps, totalLag := tl }
  | _ => none

def decConsumerGroupStatusResp : Json → Option ConsumerGroupStatusResp
  | Json.null =>
    some { burrow := zeroBurrowResp, status := zeroConsumerGroupStatus }
  | Json.obj fields => do
    let b ← decBurrowFields fields
    let st ← getField fields "status" decConsumerGroupStatus
      zeroConsumerGroupStatus
    pure { burrow := b, status := st }
  | _ => none

def decClusterTopicDetailsResp : Json → Option ClusterTopicDetailsResp
  | Json.null => some { burrow := zeroBurrowResp, offsets := [] }
  | Json.obj fields => do
    let b ← decBurrowFields fields
    let os ← getField fields "offsets" decIntList []
    pure { burrow := b, offsets := os }
  | _ => none

/-- Decode a delivered body: a non-JSON stream always fails. -/
def decodeInto {α : Type} (dec : Json → Option α) : Body → Option α
  | Body.malformed => none
  | Body.json j => dec j

/-! ## Errors, transport events and the client -/

/-- The Go `error` values the client can return, tagged by origin: the error
of `url.Parse` (returned by `buildUrl`), the error of `http.Client.Get`
(returned by `getJsonReq` / `HealthCheck`), the error of
`json.Decoder.Decode`, and `errors.New(resp.Message)` built from the
envelope.  In Go these are values of four distinct dynamic types from four
distinct sources. -/
inductive GoError where
  | urlParse (e : String)
  | transport (e : String)
  | decodeFail
  | remote (message : String)
deriving Repr, DecidableEq

/-- Observable transport events of one operation call: a GET issued to a URL,
and a `resp.Body.Close()` for the response of that URL. -/
inductive Event where
  | get (url : String)
  | closeBody (url : String)
deriving Repr, DecidableEq

/-- The behaviour of the shared `http.Client` on a GET: for each URL, either
the request cannot be completed (`err` of `Get`) or a response body is
delivered. -/
def Net : Type := String → Except String Body

/-- `BurrowClient` (lines 105–108): the configured base URL is represented by
the outcome of `url.Parse` on it (the parse of a fixed string is
deterministic), and the `http.Client` by its GET behaviour. -/
structure BurrowClient where
  parsedBase : Except String GoUrl
  net : Net

/-- `buildUrl` (lines 110–123): parse the base URL — on error return it —
then set the parsed URL's path to `path.Join(basePath, endpoint)` and
serialise. -/
def BurrowClient.buildUrl (bc : BurrowClient) (endpoint : String) :
    Except GoError String :=
  match bc.parsedBase with
  | Except.error e => Except.error (GoError.urlParse e)
  | Except.ok u =>
    Except.ok (GoUrl.toString { u with path := pathJoin u.path endpoint })

/-- `getJsonReq` (lines 125–145): GET the endpoint — on error return it and
never touch the body — otherwise decode the body into the destination under
`defer resp.Body.Close()`, which closes the body on the decode-error exit and
on the success exit alike.  Alongside the Go result, the list of transport
events is returned. -/
def getJsonReq {α : Type} (net : Net) (endpoint : String)
    (dec : Json → Option α) : Except GoError α × List Event :=
  match net endpoint with
  | Except.error e =>
    (Except.error (GoError.transport e), [Event.get endpoint])
  | Except.ok body =>
    match decodeInto dec body with
    | none =>
      (Except.error GoError.decodeFail,
        [Event.get endpoint, Event.closeBody endpoint])
    | some v =>
      (Except.ok v, [Event.get endpoint, Event.closeBody endpoint])

/-- The pair of Go return values `(result pointer, error)`, kept as two
independent options exactly as in Go, so that "never both, never neither" is
a statement and not a typing artefact. -/
def OpResult (α : Type) : Type := Option α × Option GoError

/-- `HealthCheck` (lines 147–163): build `/burrow/admin`, GET it, and return
`true` on any completed GET — the response is discarded unread and its body
is never closed. -/
def BurrowClient.HealthCheck (bc : BurrowClient) :
    (Bool × Option GoError) × List Event :=
  match bc.buildUrl "/burrow/admin" with
  | Except.error e => ((false, some e), [])
  | Except.ok endpoint =>
    match bc.net endpoint with
    | Except.error e =>
      ((false, some (GoError.transport e)), [Event.get endpoint])
    | Except.ok _ => ((true, none), [Event.get endpoint])

/-- `ListClusters` (lines 165–188). -/
def BurrowClient.ListClusters (bc : BurrowClient) :
    OpResult ClustersResp × List Event :=
  match bc.buildUrl "/v2/kafka" with
  | Except.error e => ((none, some e), [])
  | Except.ok endpoint =>
    match getJsonReq bc.net endpoint decClustersResp with
    | (Except.error e, tr) => ((none, some e), tr)
    | (Except.ok clusters, tr) =>
      if clusters.burrow.error then
        ((none, some (GoError.remote clusters.burrow.message)), tr)
      else ((some clusters, none), tr)

/-- `ClusterDetails` (lines 190–215). -/
def BurrowClient.ClusterDetails (bc : BurrowClient) (cluster : String) :
    OpResult ClusterDetailsResp × List Event :=
  match bc.buildUrl ("/v2/kafka/" ++ cluster) with
  | Except.error e => ((none, some e), [])
  | Except.ok endpoint =>
    match getJsonReq bc.net endpoint decClusterDetailsResp with
    | (Except.error e, tr) => ((none, some e), tr)
    | (Except.ok clusterDetails, tr) =>
      if clusterDetails.burrow.error then
        ((none, some (GoError.remote clusterDetails.burrow.message)), tr)
      else ((some clusterDetails, none), tr)

/-- `ListConsumers` (lines 217–242). -/
def BurrowClient.ListConsumers (bc : BurrowClient) (cluster : String) :
    OpResult ConsumerGroupsResp × List Event :=
  match bc.buildUrl ("/v2/kafka/" ++ cluster ++ "/consumer") with
  | Except.error e => ((none, some e), [])
  | Except.ok endpoint =>
    match getJsonReq bc.net endpoint decConsumerGroupsResp with
    | (Except.error e, tr) => ((none, some e), tr)
    | (Except.ok consumers, tr) =>
      if consumers.burrow.error then
        ((none, some (GoError.remote consumers.burrow.message)), tr)
      else ((some consumers, none), tr)

/-- `ListConsumerTopics` (lines 244–271). -/
def BurrowClient.ListConsumerTopics (bc : BurrowClient)
    (cluster consumerGroup : String) :
    OpResult ConsumerGroupTopicsResp × List Event :=
  match bc.buildUrl
      ("/v2/kafka/" ++ cluster ++ "/consumer/" ++ consumerGroup ++ "/topic") with
  | Except.error e => ((none, some e), [])
  | Except.ok endpoint =>
    match getJsonReq bc.net endpoint decConsumerGroupTopicsResp with
    | (Except.error e, tr) => ((none, some e), tr)
    | (Except.ok consumerTopics, tr) =>
      if consumerTopics.burrow.error then
        ((none, some (GoError.remote consumerTopics.burrow.message)), tr)
      else ((some consumerTopics, none), tr)

/-- `ConsumerGroupTopicDetails` (lines 273–302). -/
def BurrowClient.ConsumerGroupTopicDetails (bc : BurrowClient)
    (cluster consumerGroup topic : String) :
    OpResult ConsumerGroupTopicDetailsResp × List Event :=
  match bc.buildUrl
      ("/v2/kafka/" ++ cluster ++ "/consumer/" ++ consumerGroup
        ++ "/topic/" ++ topic) with
  | Except.error e => ((none, some e), [])
  | Except.ok endpoint =>
    match getJsonReq bc.net endpoint decConsumerGroupTopicDetailsResp with
    | (Except.error e, tr) => ((none, some e), tr)
    | (Except.ok topicDetails, tr) =>
      if topicDetails.burrow.error then
        ((none, some (GoError.remote topicDetails.burrow.message)), tr)
      else ((some topicDetails, none), tr)

/-- `ConsumerGroupStatus` (lines 304–331). -/
def BurrowClient.ConsumerGroupStatus (bc : BurrowClient)
    (cluster consumerGroup : String) :
    OpResult ConsumerGroupStatusResp × List Event :=
  match bc.buildUrl
      ("/v2/kafka/" ++ cluster ++ "/consumer/" ++ consumerGroup ++ "/status") with
  | Except.error e => ((none, some e), [])
  | Except.ok endpoint =>
    match getJsonReq bc.net endpoint decConsumerGroupStatusResp with
    | (Except.error e, tr) => ((none, some e), tr)
    | (Except.ok status, tr) =>
      if status.burrow.error then
        ((none, some (GoError.remote status.burrow.message)), tr)
      else ((some status, none), tr)

/-- `ConsumerGroupLag` (lines 333–360). -/
def BurrowClient.ConsumerGroupLag (bc : BurrowClient)
    (cluster consumerGroup : String) :
    OpResult ConsumerGroupStatusResp × List Event :=
  match bc.buildUrl
      ("/v2/kafka/" ++ cluster ++ "/consumer/" ++ consumerGroup ++ "/lag") with
  | Except.error e => ((none, some e), [])
  | Except.ok endpoint =>
    match getJsonReq bc.net endpoint decConsumerGroupStatusResp with
    | (Except.error e, tr) => ((none, some e), tr)
    | (Except.ok status, tr) =>
      if status.burrow.error then
        ((none, some (GoError.remote status.burrow.message)), tr)
      else ((some status, none), tr)

/-- `ClusterTopicDetails` (lines 362–389). -/
def BurrowClient.ClusterTopicDetails (bc : BurrowClient)
    (cluster topic : String) :
    OpResult ClusterTopicDetailsResp × List Event :=
  match bc.buildUrl ("/v2/kafka/" ++ cluster ++ "/topic/" ++ topic) with
  | Except.error e => ((none, some e), [])
  | Except.ok endpoint =>
    match getJsonReq bc.net endpoint decClusterTopicDetailsResp with
    | (Except.error e, tr) => ((none, some e), tr)
    | (Except.ok topicDetails, tr) =>
      if topicDetails.burrow.error then
        ((none, some (GoError.remote topicDetails.burrow.message)), tr)
      else ((some topicDetails, none), tr)

/-- The shared shape of the eight typed operations, made explicit: build the
endpooint URL, fetch-and-decode, then check the decoded envelope.  Each typed
operation above is definitionally equal to an instance of this (proved by
`rfl` below); it exists only to let the branch lemmas be stated once. -/
def opFromResp {α : Type} (bc : BurrowClient) (endpoint : String)
    (dec : Json → Option α) (env : α → BurrowResp) : OpResult α × List Event :=
  match bc.buildUrl endpoint with
  | Except.error e => ((none, some e), [])
  | Except.ok ep =>
    match getJsonReq bc.net ep dec with
    | (Except.error e, tr) => ((none, some e), tr)
    | (Except.ok v, tr) =>
      if (env v).error then
        ((none, some (GoError.remote (env v).message)), tr)
      else ((some v, none), tr)

/-! ## Concrete fixtures for witnesses and counterexamples -/

/-- A base address `http://host:8000` with empty path. -/
def plainBase : GoUrl :=
  { scheme := "http", host := "host:8000", path := "", rawQuery := "",
    fragment := "" }

/-- A base address `http://host:8000/prefix`. -/
def prefixBase : GoUrl :=
  { scheme := "http", host := "host:8000", path := "/prefix", rawQuery := "",
    fragment := "" }

/-- A base address `http://host:8000/prefix?q=1#frag`. -/
def queryBase : GoUrl :=
  { scheme := "http", host := "host:8000", path := "/prefix",
    rawQuery := "q=1", fragment := "frag" }

/-- The body `{"error": true, "message": "no such cluster"}`. -/
def envelopeErrorBody : Body :=
  Body.json (Json.obj
    [("error", Json.bool true), ("message", Json.str "no such cluster")])

/-- The body `{"error": true, "message": "no such cluster", "clusters": 42}`:
its envelope carries `error == true`, but its payload does not match the
`ClustersResp` shape. -/
def badPayloadBody : Body :=
  Body.json (Json.obj
    [("error", Json.bool true), ("message", Json.str "no such cluster"),
      ("clusters", Json.num 42)])

/-- The body `{"error": false, "clusters": ["a", "b"]}`. -/
def clustersBody : Body :=
  Body.json (Json.obj
    [("error", Json.bool false),
      ("clusters", Json.arr [Json.str "a", Json.str "b"])])

/-- The body `{}`. -/
def emptyObjectBody : Body := Body.json (Json.obj [])

/-- A transport that delivers the same body for every URL. -/
def netOf (b : Body) : Net := fun _ => Except.ok b

/-- A transport on which every request fails. -/
def netRefused : Net := fun _ => Except.error "connection refused"

/-! ## Lemmas about `goClean` and `goJoin` -/

theorem hasDS_cons_cons (a b : Char) (rest : List Char) :
    hasDS (a :: b :: rest) = ((a == '/' && b == '/') || hasDS (b :: rest)) :=
  rfl

theorem hasDS_append_of_noSlash (s t : List Char) (hs : ∀ c ∈ s, c ≠ '/') :
    hasDS (s ++ t) = hasDS t := by
  induction s with
  | nil => rfl
  | cons c s' ih =>
    have hc : (c == '/') = false := by
      simpa using hs c (List.mem_cons_self c s')
    have hs' : ∀ x ∈ s', x ≠ '/' := fun x hx => hs x (List.mem_cons_of_mem c hx)
    rw [List.cons_append]
    cases h : s' ++ t with
    | nil =>
      rcases List.append_eq_nil.mp h with ⟨h1, h2⟩
      subst h1; subst h2
      rfl
    | cons b r =>
      rw [hasDS_cons_cons, hc, Bool.false_and, Bool.false_or, ← h, ih hs']

theorem hasDS_of_noSlash (s : List Char) (hs : ∀ c ∈ s, c ≠ '/') :
    hasDS s = false := by
  have h := hasDS_append_of_noSlash s [] hs
  simpa using h

theorem joinSegs_cons_cons (s s' : List Char) (rest : List (List Char)) :
    joinSegs (s :: s' :: rest) = s ++ '/' :: joinSegs (s' :: rest) := rfl

theorem hasDS_joinSegs (segs : List (List Char))
    (h : ∀ s ∈ segs, GoodSeg s) :
    hasDS (joinSegs segs) = false ∧
      ∀ c, (joinSegs segs).head? = some c → c ≠ '/' := by
  induction segs with
  | nil =>
    refine ⟨rfl, ?_⟩
    intro c hc
    simp [joinSegs] at hc
  | cons s rest ih =>
    have hgs : GoodSeg s := h s (List.mem_cons_self s rest)
    have hrest : ∀ x ∈ rest, GoodSeg x :=
      fun x hx => h x (List.mem_cons_of_mem s hx)
    cases rest with
    | nil =>
      refine ⟨hasDS_of_noSlash s hgs.2, ?_⟩
      intro c hc
      exact hgs.2 c (List.mem_of_mem_head? hc)
    | cons s' rest' =>
      have ihr := ih hrest
      rw [joinSegs_cons_cons]
      constructor
      · rw [hasDS_append_of_noSlash _ _ hgs.2]
        cases hJ : joinSegs (s' :: rest') with
        | nil => rfl
        | cons c r =>
          have hc : c ≠ '/' := ihr.2 c (by rw [hJ]; rfl)
          have h2 := ihr.1
          rw [hJ] at h2
          rw [hasDS_cons_cons, h2]
          simp [hc]
      · intro c hc
        rcases List.exists_cons_of_ne_nil hgs.1 with ⟨a, s₂, rfl⟩
        rw [List.cons_append] at hc
        simp only [List.head?_cons, Option.some.injEq] at hc
        subst hc
        exact hgs.2 a (List.mem_cons_self a s₂)

theorem processSeg_good (rooted : Bool) (stack : List (List Char))
    (seg : List Char) (hst : ∀ s ∈ stack, GoodSeg s)
    (hseg : ∀ c ∈ seg, c ≠ '/') :
    ∀ s ∈ processSeg rooted stack seg, GoodSeg s := by
  intro s hs
  have hdots : GoodSeg ['.', '.'] := by
    refine ⟨by simp, ?_⟩
    intro c hc
    rw [List.mem_cons, List.mem_singleton] at hc
    rcases hc with rfl | rfl <;> decide
  unfold processSeg at hs
  split at hs
  · exact hst s hs
  next hne =>
    split at hs
    · split at hs
      next =>
        split at hs
        · simp at hs
        · rw [List.mem_singleton] at hs
          subst hs
          exact hdots
      next top rest =>
        split at hs
        · rw [List.mem_cons] at hs
          rcases hs with rfl | hs
          · exact hdots
          · exact hst s hs
        · exact hst s (List.mem_cons_of_mem top hs)
    · rw [List.mem_cons] at hs
      rcases hs with rfl | hs
      · exact ⟨fun h0 => hne (Or.inl h0), hseg⟩
      · exact hst s hs

theorem foldl_processSeg_good (rooted : Bool) (segs : List (List Char))
    (stack : List (List Char)) (hsegs : ∀ s ∈ segs, ∀ c ∈ s, c ≠ '/')
    (hst : ∀ s ∈ stack, GoodSeg s) :
    ∀ s ∈ segs.foldl (processSeg rooted) stack, GoodSeg s := by
  induction segs generalizing stack with
  | nil => simpa using hst
  | cons seg rest ih =>
    rw [List.foldl_cons]
    exact ih (processSeg rooted stack seg)
      (fun s hs => hsegs s (List.mem_cons_of_mem seg hs))
      (processSeg_good rooted stack seg hst
        (hsegs seg (List.mem_cons_self seg rest)))

theorem cleanSegs_good (rooted : Bool) (segs : List (List Char))
    (hsegs : ∀ s ∈ segs, ∀ c ∈ s, c ≠ '/') :
    ∀ s ∈ cleanSegs rooted segs, GoodSeg s := by
  intro s hs
  unfold cleanSegs at hs
  rw [List.mem_reverse] at hs
  exact foldl_processSeg_good rooted segs [] hsegs (by simp) s hs

theorem splitSlash_noSlash (p : List Char) :
    ∀ s ∈ splitSlash p, ∀ c ∈ s, c ≠ '/' := by
  induction p with
  | nil =>
    intro s hs c hc
    rw [splitSlash, List.mem_singleton] at hs
    subst hs
    simp at hc
  | cons a rest ih =>
    intro s hs c hc
    rw [splitSlash] at hs
    split at hs
    · rw [List.mem_cons] at hs
      rcases hs with rfl | hs
      · simp at hc
      · exact ih s hs c hc
    next ha =>
      cases hsp : splitSlash rest with
      | nil =>
        rw [hsp] at hs
        rw [List.mem_singleton] at hs
        subst hs
        rw [List.mem_singleton] at hc
        subst hc
        exact ha
      | cons s0 tl =>
        rw [hsp] at hs
        rw [List.mem_cons] at hs
        rcases hs with rfl | hs
        · rw [List.mem_cons] at hc
          rcases hc with rfl | hc
          · exact ha
          · exact ih s0 (by rw [hsp]; exact List.mem_cons_self s0 tl) c hc
        · exact ih s (by rw [hsp]; exact List.mem_cons_of_mem s0 hs) c hc

theorem hasDS_goClean (p : List Char) : hasDS (goClean p) = false := by
  unfold goClean
  split
  · rfl
  · split
    · have hgood := cleanSegs_good true (splitSlash p) (splitSlash_noSlash p)
      have hres := hasDS_joinSegs _ hgood
      cases hJ : joinSegs (cleanSegs true (splitSlash p)) with
      | nil => rfl
      | cons c r =>
        have hc : c ≠ '/' := hres.2 c (by rw [hJ]; rfl)
        have h2 := hres.1
        rw [hJ] at h2
        rw [hasDS_cons_cons, h2]
        simp [hc]
    · split
      · rfl
      · exact (hasDS_joinSegs _
          (cleanSegs_good false (splitSlash p) (splitSlash_noSlash p))).1

theorem hasDS_goJoin (a b : List Char) : hasDS (goJoin a b) = false := by
  unfold goJoin
  split
  · split
    · rfl
    · exact hasDS_goClean b
  · exact hasDS_goClean (a ++ '/' :: b)

theorem pathJoin_no_double_slash (a b : String) :
    hasDS (pathJoin a b).data = false := by
  simpa [pathJoin] using hasDS_goJoin a.data b.data


/-! ## Branch lemmas for `buildUrl`, `getJsonReq` and `opFromResp` -/

theorem buildUrl_ok (u : GoUrl) (net : Net) (endpoint : String) :
    BurrowClient.buildUrl ⟨Except.ok u, net⟩ endpoint
      = Except.ok (builtUrl u endpoint) := rfl

theorem buildUrl_parse_error (e : String) (net : Net) (endpoint : String) :
    BurrowClient.buildUrl ⟨Except.error e, net⟩ endpoint
      = Except.error (GoError.urlParse e) := rfl

theorem getJsonReq_transport {α : Type} (net : Net) (ep : String)
    (dec : Json → Option α) (e : String) (h : net ep = Except.error e) :
    getJsonReq net ep dec
      = (Except.error (GoError.transport e), [Event.get ep]) := by
  simp [getJsonReq, h]

theorem getJsonReq_decode_fail {α : Type} (net : Net) (ep : String)
    (dec : Json → Option α) (body : Body) (h : net ep = Except.ok body)
    (hd : decodeInto dec body = none) :
    getJsonReq net ep dec
      = (Except.error GoError.decodeFail,
          [Event.get ep, Event.closeBody ep]) := by
  simp [getJsonReq, h, hd]

theorem getJsonReq_decode_ok {α : Type} (net : Net) (ep : String)
    (dec : Json → Option α) (body : Body) (v : α)
    (h : net ep = Except.ok body) (hd : decodeInto dec body = some v) :
    getJsonReq net ep dec
      = (Except.ok v, [Event.get ep, Event.closeBody ep]) := by
  simp [getJsonReq, h, hd]

theorem opFromResp_parse_error {α : Type} (e : String) (net : Net)
    (endpoint : String) (dec : Json → Option α) (env : α → BurrowResp) :
    opFromResp ⟨Except.error e, net⟩ endpoint dec env
      = ((none, some (GoError.urlParse e)), []) := rfl

theorem opFromResp_transport {α : Type} (u : GoUrl) (net : Net)
    (endpoint : String) (dec : Json → Option α) (env : α → BurrowResp)
    (e : String) (h : net (builtUrl u endpoint) = Except.error e) :
    opFromResp ⟨Except.ok u, net⟩ endpoint dec env
      = ((none, some (GoError.transport e)),
          [Event.get (builtUrl u endpoint)]) := by
  simp [opFromResp, buildUrl_ok, getJsonReq_transport net _ dec e h]

theorem opFromResp_decode_fail {α : Type} (u : GoUrl) (net : Net)
    (endpoint : String) (dec : Json → Option α) (env : α → BurrowResp)
    (body : Body) (h : net (builtUrl u endpoint) = Except.ok body)
    (hd : decodeInto dec body = none) :
    opFromResp ⟨Except.ok u, net⟩ endpoint dec env
      = ((none, some GoError.decodeFail),
          [Event.get (builtUrl u endpoint),
            Event.closeBody (builtUrl u endpoint)]) := by
  simp [opFromResp, buildUrl_ok, getJsonReq_decode_fail net _ dec body h hd]

theorem opFromResp_remote_error {α : Type} (u : GoUrl) (net : Net)
    (endpoint : String) (dec : Json → Option α) (env : α → BurrowResp)
    (body : Body) (v : α) (h : net (builtUrl u endpoint) = Except.ok body)
    (hd : decodeInto dec body = some v) (he : (env v).error = true) :
    opFromResp ⟨Except.ok u, net⟩ endpoint dec env
      = ((none, some (GoError.remote (env v).message)),
          [Event.get (builtUrl u endpoint),
            Event.closeBody (builtUrl u endpoint)]) := by
  simp [opFromResp, buildUrl_ok, getJsonReq_decode_ok net _ dec body v h hd, he]

theorem opFromResp_success {α : Type} (u : GoUrl) (net : Net)
    (endpoint : String) (dec : Json → Option α) (env : α → BurrowResp)
    (body : Body) (v : α) (h : net (builtUrl u endpoint) = Except.ok body)
    (hd : decodeInto dec body = some v) (he : (env v).error = false) :
    opFromResp ⟨Except.ok u, net⟩ endpoint dec env
      = ((some v, none),
          [Event.get (builtUrl u endpoint),
            Event.closeBody (builtUrl u endpoint)]) := by
  simp [opFromResp, buildUrl_ok, getJsonReq_decode_ok net _ dec body v h hd, he]

/-- Every `opFromResp` outcome is a sole result or a sole error. -/
theorem opFromResp_result_xor_error {α : Type} (pb : Except String GoUrl)
    (net : Net) (endpoint : String) (dec : Json → Option α)
    (env : α → BurrowResp) :
    (∃ v, (opFromResp ⟨pb, net⟩ endpoint dec env).1 = (some v, none)) ∨
      (∃ e, (opFromResp ⟨pb, net⟩ endpoint dec env).1 = (none, some e)) := by
  rcases pb with e | u
  · exact Or.inr ⟨GoError.urlParse e, rfl⟩
  · cases h : net (builtUrl u endpoint) with
    | error e =>
      exact Or.inr ⟨GoError.transport e,
        by rw [opFromResp_transport u net endpoint dec env e h]⟩
    | ok body =>
      cases hd : decodeInto dec body with
      | none =>
        exact Or.inr ⟨GoError.decodeFail,
          by rw [opFromResp_decode_fail u net endpoint dec env body h hd]⟩
      | some v =>
        cases he : (env v).error with
        | false =>
          exact Or.inl ⟨v,
            by rw [opFromResp_success u net endpoint dec env body v h hd he]⟩
        | true =>
          exact Or.inr ⟨GoError.remote (env v).message,
            by rw [opFromResp_remote_error u net endpoint dec env body v h hd he]⟩

/-- With a parseable base, the first transport event of an `opFromResp` call
is a GET to the built endpoint URL. -/
theorem opFromResp_trace_head {α : Type} (u : GoUrl) (net : Net)
    (endpoint : String) (dec : Json → Option α) (env : α → BurrowResp) :
    (opFromResp ⟨Except.ok u, net⟩ endpoint dec env).2.head?
      = some (Event.get (builtUrl u endpoint)) := by
  cases h : net (builtUrl u endpoint) with
  | error e =>
    rw [opFromResp_transport u net endpoint dec env e h]
    rfl
  | ok body =>
    cases hd : decodeInto dec body with
    | none =>
      rw [opFromResp_decode_fail u net endpoint dec env body h hd]
      rfl
    | some v =>
      cases he : (env v).error with
      | false =>
        rw [opFromResp_success u net endpoint dec env body v h hd he]
        rfl
      | true =>
        rw [opFromResp_remote_error u net endpoint dec env body v h hd he]
        rfl

/-- With a delivered body, the error of an `opFromResp` call is the decode
error exactly when decoding the body fails. -/
theorem opFromResp_decodeFail_iff {α : Type} (u : GoUrl) (net : Net)
    (endpoint : String) (dec : Json → Option α) (env : α → BurrowResp)
    (body : Body) (h : net (builtUrl u endpoint) = Except.ok body) :
    (opFromResp ⟨Except.ok u, net⟩ endpoint dec env).1.2
        = some GoError.decodeFail
      ↔ decodeInto dec body = none := by
  cases hd : decodeInto dec body with
  | none =>
    rw [opFromResp_decode_fail u net endpoint dec env body h hd]
    simp
  | some v =>
    cases he : (env v).error with
    | false =>
      rw [opFromResp_success u net endpoint dec env body v h hd he]
      simp
    | true =>
      rw [opFromResp_remote_error u net endpoint dec env body v h hd he]
      simp

/-! ## Equation lemmas: each typed operation is an `opFromResp` instance -/

theorem ListClusters_eq (bc : BurrowClient) :
    bc.ListClusters = opFromResp bc "/v2/kafka" decClustersResp
      (fun r => r.burrow) := by
  rcases bc with ⟨pb, net⟩
  rcases pb with e | u
  · rfl
  · unfold BurrowClient.ListClusters opFromResp
    rcases hg : getJsonReq net (builtUrl u "/v2/kafka") decClustersResp
      with ⟨res, tr⟩
    simp only [buildUrl_ok, hg]
    cases res <;> rfl

theorem ClusterDetails_eq (bc : BurrowClient) (cluster : String) :
    bc.ClusterDetails cluster
      = opFromResp bc ("/v2/kafka/" ++ cluster) decClusterDetailsResp
        (fun r => r.burrow) := by
  rcases bc with ⟨pb, net⟩
  rcases pb with e | u
  · rfl
  · unfold BurrowClient.ClusterDetails opFromResp
    rcases hg : getJsonReq net (builtUrl u ("/v2/kafka/" ++ cluster))
      decClusterDetailsResp with ⟨res, tr⟩
    simp only [buildUrl_ok, hg]
    cases res <;> rfl

theorem ListConsumers_eq (bc : BurrowClient) (cluster : String) :
    bc.ListConsumers cluster
      = opFromResp bc ("/v2/kafka/" ++ cluster ++ "/consumer")
        decConsumerGroupsResp (fun r => r.burrow) := by
  rcases bc with ⟨pb, net⟩
  rcases pb with e | u
  · rfl
  · unfold BurrowClient.ListConsumers opFromResp
    rcases hg : getJsonReq net (builtUrl u ("/v2/kafka/" ++ cluster ++ "/consumer"))
      decConsumerGroupsResp with ⟨res, tr⟩
    simp only [buildUrl_ok, hg]
    cases res <;> rfl

theorem ListConsumerTopics_eq (bc : BurrowClient)
    (cluster consumerGroup : String) :
    bc.ListConsumerTopics cluster consumerGroup
      = opFromResp bc
        ("/v2/kafka/" ++ cluster ++ "/consumer/" ++ consumerGroup ++ "/topic")
        decConsumerGroupTopicsResp (fun r => r.burrow) := by
  rcases bc with ⟨pb, net⟩
  rcases pb with e | u
  · rfl
  · unfold BurrowClient.ListConsumerTopics opFromResp
    rcases hg : getJsonReq net
      (builtUrl u
        ("/v2/kafka/" ++ cluster ++ "/consumer/" ++ consumerGroup ++ "/topic"))
      decConsumerGroupTopicsResp with ⟨res, tr⟩
    simp only [buildUrl_ok, hg]
    cases res <;> rfl

theorem ConsumerGroupTopicDetails_eq (bc : BurrowClient)
    (cluster consumerGroup topic : String) :
    bc.ConsumerGroupTopicDetails cluster consumerGroup topic
      = opFromResp bc
        ("/v2/kafka/" ++ cluster ++ "/consumer/" ++ consumerGroup
          ++ "/topic/" ++ topic)
        decConsumerGroupTopicDetailsResp (fun r => r.burrow) := by
  rcases bc with ⟨pb, net⟩
  rcases pb with e | u
  · rfl
  · unfold BurrowClient.ConsumerGroupTopicDetails opFromResp
    rcases hg : getJsonReq net
      (builtUrl u
        ("/v2/kafka/" ++ cluster ++ "/consumer/" ++ consumerGroup
          ++ "/topic/" ++ topic))
      decConsumerGroupTopicDetailsResp with ⟨res, tr⟩
    simp only [buildUrl_ok, hg]
    cases res <;> rfl

theorem ConsumerGroupStatus_eq (bc : BurrowClient)
    (cluster consumerGroup : String) :
    bc.ConsumerGroupStatus cluster consumerGroup
      = opFromResp bc
        ("/v2/kafka/" ++ cluster ++ "/consumer/" ++ consumerGroup ++ "/status")
        decConsumerGroupStatusResp (fun r => r.burrow) := by
  rcases bc with ⟨pb, net⟩
  rcases pb with e | u
  · rfl
  · unfold BurrowClient.ConsumerGroupStatus opFromResp
    rcases hg : getJsonReq net
      (builtUrl u
        ("/v2/kafka/" ++ cluster ++ "/consumer/" ++ consumerGroup ++ "/status"))
      decConsumerGroupStatusResp with ⟨res, tr⟩
    simp only [buildUrl_ok, hg]
    cases res <;> rfl

theorem ConsumerGroupLag_eq (bc : BurrowClient)
    (cluster consumerGroup : String) :
    bc.ConsumerGroupLag cluster consumerGroup
      = opFromResp bc
        ("/v2/kafka/" ++ cluster ++ "/consumer/" ++ consumerGroup ++ "/lag")
        decConsumerGroupStatusResp (fun r => r.burrow) := by
  rcases bc with ⟨pb, net⟩
  rcases pb with e | u
  · rfl
  · unfold BurrowClient.ConsumerGroupLag opFromResp
    rcases hg : getJsonReq net
      (builtUrl u
        ("/v2/kafka/" ++ cluster ++ "/consumer/" ++ consumerGroup ++ "/lag"))
      decConsumerGroupStatusResp with ⟨res, tr⟩
    simp only [buildUrl_ok, hg]
    cases res <;> rfl

theorem ClusterTopicDetails_eq (bc : BurrowClient) (cluster topic : String) :
    bc.ClusterTopicDetails cluster topic
      = opFromResp bc ("/v2/kafka/" ++ cluster ++ "/topic/" ++ topic)
        decClusterTopicDetailsResp (fun r => r.burrow) := by
  rcases bc with ⟨pb, net⟩
  rcases pb with e | u
  · rfl
  · unfold BurrowClient.ClusterTopicDetails opFromResp
    rcases hg : getJsonReq net
      (builtUrl u ("/v2/kafka/" ++ cluster ++ "/topic/" ++ topic))
      decClusterTopicDetailsResp with ⟨res, tr⟩
    simp only [buildUrl_ok, hg]
    cases res <;> rfl

/-! ## Claim theorems -/

/-- C4: for every parsed base address and every relative endpoint path,
`buildUrl` returns the base serialised with the endpoint `path.Join`ed onto
the base's path, the joined path contains no double slashes, and the base's
query and fragment are preserved; in particular base
`http://host:8000/prefix` with endpoint `/kafka/clusterA` yields
`http://host:8000/prefix/kafka/clusterA`, and a base carrying a query and a
fragment keeps both. -/
theorem buildUrl_joins_base_and_endpoint :
    (∀ (u : GoUrl) (net : Net) (endpoint : String),
      BurrowClient.buildUrl ⟨Except.ok u, net⟩ endpoint
        = Except.ok (GoUrl.toString
            { scheme := u.scheme, host := u.host,
              path := pathJoin u.path endpoint, rawQuery := u.rawQuery,
              fragment := u.fragment })) ∧
    (∀ (basePath endpoint : String),
      hasDS (pathJoin basePath endpoint).data = false) ∧
    BurrowClient.buildUrl ⟨Except.ok prefixBase, netRefused⟩ "/kafka/clusterA"
      = Except.ok "http://host:8000/prefix/kafka/clusterA" ∧
    BurrowClient.buildUrl ⟨Except.ok queryBase, netRefused⟩ "/kafka/clusterA"
      = Except.ok "http://host:8000/prefix/kafka/clusterA?q=1#frag" :=
  ⟨fun _ _ _ => rfl, pathJoin_no_double_slash, rfl, rfl⟩

/-- C6: when the configured base address does not parse, every operation —
the health check included — fails with the URL-construction error and issues
no HTTP request: its transport-event trace is empty. -/
theorem url_parse_error_fails_fast :
    ∀ (e : String) (net : Net) (cluster group topic : String),
    BurrowClient.HealthCheck ⟨Except.error e, net⟩
      = ((false, some (GoError.urlParse e)), []) ∧
    BurrowClient.ListClusters ⟨Except.error e, net⟩
      = ((none, some (GoError.urlParse e)), []) ∧
    BurrowClient.ClusterDetails ⟨Except.error e, net⟩ cluster
      = ((none, some (GoError.urlParse e)), []) ∧
    BurrowClient.ListConsumers ⟨Except.error e, net⟩ cluster
      = ((none, some (GoError.urlParse e)), []) ∧
    BurrowClient.ListConsumerTopics ⟨Except.error e, net⟩ cluster group
      = ((none, some (GoError.urlParse e)), []) ∧
    BurrowClient.ConsumerGroupTopicDetails ⟨Except.error e, net⟩ cluster group
        topic
      = ((none, some (GoError.urlParse e)), []) ∧
    BurrowClient.ConsumerGroupStatus ⟨Except.error e, net⟩ cluster group
      = ((none, some (GoError.urlParse e)), []) ∧
    BurrowClient.ConsumerGroupLag ⟨Except.error e, net⟩ cluster group
      = ((none, some (GoError.urlParse e)), []) ∧
    BurrowClient.ClusterTopicDetails ⟨Except.error e, net⟩ cluster topic
      = ((none, some (GoError.urlParse e)), []) :=
  fun _ _ _ _ _ => ⟨rfl, rfl, rfl, rfl, rfl, rfl, rfl, rfl, rfl⟩

/-- C2 counterexample: with base address `http://host:8000`, the health
check's only GET goes to `http://host:8000/burrow/admin` — not to the path
`/admin` the claim names — and the list-clusters GET goes to
`http://host:8000/v2/kafka`, not to `/kafka`. -/
theorem healthcheck_path_not_admin :
    (BurrowClient.HealthCheck
        ⟨Except.ok plainBase, netOf emptyObjectBody⟩).2
      = [Event.get "http://host:8000/burrow/admin"] ∧
    ("http://host:8000/burrow/admin" : String) ≠ "http://host:8000/admin" ∧
    (BurrowClient.ListClusters
        ⟨Except.ok plainBase, netOf emptyObjectBody⟩).2.head?
      = some (Event.get "http://host:8000/v2/kafka") ∧
    ("http://host:8000/v2/kafka" : String) ≠ "http://host:8000/kafka" :=
  ⟨rfl, by decide, rfl, by decide⟩

/-- C2 (amended): each operation issues its GET against the base address
joined with its actual endpoint path: `/burrow/admin` for the health check,
`/v2/kafka` for list-clusters, and the `/v2/kafka/{cluster}/...` paths of the
source's table for the remaining operations. -/
theorem operation_endpoint_paths :
    ∀ (u : GoUrl) (net : Net) (cluster group topic : String),
    (BurrowClient.HealthCheck ⟨Except.ok u, net⟩).2.head?
      = some (Event.get (builtUrl u "/burrow/admin")) ∧
    (BurrowClient.ListClusters ⟨Except.ok u, net⟩).2.head?
      = some (Event.get (builtUrl u "/v2/kafka")) ∧
    (BurrowClient.ClusterDetails ⟨Except.ok u, net⟩ cluster).2.head?
      = some (Event.get (builtUrl u ("/v2/kafka/" ++ cluster))) ∧
    (BurrowClient.ListConsumers ⟨Except.ok u, net⟩ cluster).2.head?
      = some (Event.get (builtUrl u ("/v2/kafka/" ++ cluster ++ "/consumer"))) ∧
    (BurrowClient.ListConsumerTopics ⟨Except.ok u, net⟩ cluster group).2.head?
      = some (Event.get (builtUrl u
          ("/v2/kafka/" ++ cluster ++ "/consumer/" ++ group ++ "/topic"))) ∧
    (BurrowClient.ConsumerGroupTopicDetails ⟨Except.ok u, net⟩ cluster group
        topic).2.head?
      = some (Event.get (builtUrl u
          ("/v2/kafka/" ++ cluster ++ "/consumer/" ++ group
            ++ "/topic/" ++ topic))) ∧
    (BurrowClient.ConsumerGroupStatus ⟨Except.ok u, net⟩ cluster group).2.head?
      = some (Event.get (builtUrl u
          ("/v2/kafka/" ++ cluster ++ "/consumer/" ++ group ++ "/status"))) ∧
    (BurrowClient.ConsumerGroupLag ⟨Except.ok u, net⟩ cluster group).2.head?
      = some (Event.get (builtUrl u
          ("/v2/kafka/" ++ cluster ++ "/consumer/" ++ group ++ "/lag"))) ∧
    (BurrowClient.ClusterTopicDetails ⟨Except.ok u, net⟩ cluster topic).2.head?
      = some (Event.get (builtUrl u
          ("/v2/kafka/" ++ cluster ++ "/topic/" ++ topic))) := by
  intro u net cluster group topic
  refine ⟨?_, ?_, ?_, ?_, ?_, ?_, ?_, ?_, ?_⟩
  · unfold BurrowClient.HealthCheck
    simp only [buildUrl_ok]
    cases h : net (builtUrl u "/burrow/admin") with
    | error e => simp [h]
    | ok b => simp [h]
  · rw [ListClusters_eq]
    exact opFromResp_trace_head u net _ _ _
  · rw [ClusterDetails_eq]
    exact opFromResp_trace_head u net _ _ _
  · rw [ListConsumers_eq]
    exact opFromResp_trace_head u net _ _ _
  · rw [ListConsumerTopics_eq]
    exact opFromResp_trace_head u net _ _ _
  · rw [ConsumerGroupTopicDetails_eq]
    exact opFromResp_trace_head u net _ _ _
  · rw [ConsumerGroupStatus_eq]
    exact opFromResp_trace_head u net _ _ _
  · rw [ConsumerGroupLag_eq]
    exact opFromResp_trace_head u net _ _ _
  · rw [ClusterTopicDetails_eq]
    exact opFromResp_trace_head u net _ _ _

/-- C8: every typed operation returns either a decoded result and no error,
or no result and exactly one error — never both and never a partial result
alongside an error. -/
theorem operations_result_xor_error :
    ∀ (pb : Except String GoUrl) (net : Net) (cluster group topic : String),
    ((∃ v, (BurrowClient.ListClusters ⟨pb, net⟩).1 = (some v, none)) ∨
      (∃ e, (BurrowClient.ListClusters ⟨pb, net⟩).1 = (none, some e))) ∧
    ((∃ v, (BurrowClient.ClusterDetails ⟨pb, net⟩ cluster).1 = (some v, none)) ∨
      (∃ e, (BurrowClient.ClusterDetails ⟨pb, net⟩ cluster).1
        = (none, some e))) ∧
    ((∃ v, (BurrowClient.ListConsumers ⟨pb, net⟩ cluster).1 = (some v, none)) ∨
      (∃ e, (BurrowClient.ListConsumers ⟨pb, net⟩ cluster).1
        = (none, some e))) ∧
    ((∃ v, (BurrowClient.ListConsumerTopics ⟨pb, net⟩ cluster group).1
        = (some v, none)) ∨
      (∃ e, (BurrowClient.ListConsumerTopics ⟨pb, net⟩ cluster group).1
        = (none, some e))) ∧
    ((∃ v, (BurrowClient.ConsumerGroupTopicDetails ⟨pb, net⟩ cluster group
          topic).1 = (some v, none)) ∨
      (∃ e, (BurrowClient.ConsumerGroupTopicDetails ⟨pb, net⟩ cluster group
          topic).1 = (none, some e))) ∧
    ((∃ v, (BurrowClient.ConsumerGroupStatus ⟨pb, net⟩ cluster group).1
        = (some v, none)) ∨
      (∃ e, (BurrowClient.ConsumerGroupStatus ⟨pb, net⟩ cluster group).1
        = (none, some e))) ∧
    ((∃ v, (BurrowClient.ConsumerGroupLag ⟨pb, net⟩ cluster group).1
        = (some v, none)) ∨
      (∃ e, (BurrowClient.ConsumerGroupLag ⟨pb, net⟩ cluster group).1
        = (none, some e))) ∧
    ((∃ v, (BurrowClient.ClusterTopicDetails ⟨pb, net⟩ cluster topic).1
        = (some v, none)) ∨
      (∃ e, (BurrowClient.ClusterTopicDetails ⟨pb, net⟩ cluster topic).1
        = (none, some e))) := by
  intro pb net cluster group topic
  refine ⟨?_, ?_, ?_, ?_, ?_, ?_, ?_, ?_⟩
  · rw [ListClusters_eq]
    exact opFromResp_result_xor_error pb net _ _ _
  · rw [ClusterDetails_eq]
    exact opFromResp_result_xor_error pb net _ _ _
  · rw [ListConsumers_eq]
    exact opFromResp_result_xor_error pb net _ _ _
  · rw [ListConsumerTopics_eq]
    exact opFromResp_result_xor_error pb net _ _ _
  · rw [ConsumerGroupTopicDetails_eq]
    exact opFromResp_result_xor_error pb net _ _ _
  · rw [ConsumerGroupStatus_eq]
    exact opFromResp_result_xor_error pb net _ _ _
  · rw [ConsumerGroupLag_eq]
    exact opFromResp_result_xor_error pb net _ _ _
  · rw [ClusterTopicDetails_eq]
    exact opFromResp_result_xor_error pb net _ _ _

/-- C1 counterexample: the body `{"error": true, "message": "no such
cluster", "clusters": 42}` has an envelope that decodes with
`error == true`, yet `ListClusters` fails with the JSON decode error — not
with an error carrying the envelope's message — because `Decode` returns a
non-nil error for the mismatched payload before the envelope flag is ever
inspected. -/
theorem envelope_error_bad_payload_counterexample :
    decBurrowFields
        [("error", Json.bool true), ("message", Json.str "no such cluster"),
          ("clusters", Json.num 42)]
      = some { error := true, message := "no such cluster" } ∧
    (BurrowClient.ListClusters
        ⟨Except.ok plainBase, netOf badPayloadBody⟩).1
      = (none, some GoError.decodeFail) ∧
    GoError.decodeFail ≠ GoError.remote "no such cluster" :=
  ⟨rfl, rfl, by decide⟩

/-- C1 (amended): for every typed operation and every delivered body that
decodes into the operation's typed shape with envelope `error == true`, the
operation returns no result and an error carrying exactly the envelope's
message text; a body whose payload fails the structural decode instead
yields the decode error even when its envelope says `error == true`. -/
theorem envelope_error_message_surfaced :
    ∀ (u : GoUrl) (net : Net) (cluster group topic : String),
    (∀ (body : Body) (r : ClustersResp),
      net (builtUrl u "/v2/kafka") = Except.ok body →
      decodeInto decClustersResp body = some r →
      r.burrow.error = true →
      (BurrowClient.ListClusters ⟨Except.ok u, net⟩).1
        = (none, some (GoError.remote r.burrow.message))) ∧
    (∀ (body : Body) (r : ClusterDetailsResp),
      net (builtUrl u ("/v2/kafka/" ++ cluster)) = Except.ok body →
      decodeInto decClusterDetailsResp body = some r →
      r.burrow.error = true →
      (BurrowClient.ClusterDetails ⟨Except.ok u, net⟩ cluster).1
        = (none, some (GoError.remote r.burrow.message))) ∧
    (∀ (body : Body) (r : ConsumerGroupsResp),
      net (builtUrl u ("/v2/kafka/" ++ cluster ++ "/consumer"))
        = Except.ok body →
      decodeInto decConsumerGroupsResp body = some r →
      r.burrow.error = true →
      (BurrowClient.ListConsumers ⟨Except.ok u, net⟩ cluster).1
        = (none, some (GoError.remote r.burrow.message))) ∧
    (∀ (body : Body) (r : ConsumerGroupTopicsResp),
      net (builtUrl u
          ("/v2/kafka/" ++ cluster ++ "/consumer/" ++ group ++ "/topic"))
        = Except.ok body →
      decodeInto decConsumerGroupTopicsResp body = some r →
      r.burrow.error = true →
      (BurrowClient.ListConsumerTopics ⟨Except.ok u, net⟩ cluster group).1
        = (none, some (GoError.remote r.burrow.message))) ∧
    (∀ (body : Body) (r : ConsumerGroupTopicDetailsResp),
      net (builtUrl u
          ("/v2/kafka/" ++ cluster ++ "/consumer/" ++ group
            ++ "/topic/" ++ topic))
        = Except.ok body →
      decodeInto decConsumerGroupTopicDetailsResp body = some r →
      r.burrow.error = true →
      (BurrowClient.ConsumerGroupTopicDetails ⟨Except.ok u, net⟩ cluster group
          topic).1
        = (none, some (GoError.remote r.burrow.message))) ∧
    (∀ (body : Body) (r : ConsumerGroupStatusResp),
      net (builtUrl u
          ("/v2/kafka/" ++ cluster ++ "/consumer/" ++ group ++ "/status"))
        = Except.ok body →
      decodeInto decConsumerGroupStatusResp body = some r →
      r.burrow.error = true →
      (BurrowClient.ConsumerGroupStatus ⟨Except.ok u, net⟩ cluster group).1
        = (none, some (GoError.remote r.burrow.message))) ∧
    (∀ (body : Body) (r : ConsumerGroupStatusResp),
      net (builtUrl u
          ("/v2/kafka/" ++ cluster ++ "/consumer/" ++ group ++ "/lag"))
        = Except.ok body →
      decodeInto decConsumerGroupStatusResp body = some r →
      r.burrow.error = true →
      (BurrowClient.ConsumerGroupLag ⟨Except.ok u, net⟩ cluster group).1
        = (none, some (GoError.remote r.burrow.message))) ∧
    (∀ (body : Body) (r : ClusterTopicDetailsResp),
      net (builtUrl u ("/v2/kafka/" ++ cluster ++ "/topic/" ++ topic))
        = Except.ok body →
      decodeInto decClusterTopicDetailsResp body = some r →
      r.burrow.error = true →
      (BurrowClient.ClusterTopicDetails ⟨Except.ok u, net⟩ cluster topic).1
        = (none, some (GoError.remote r.burrow.message))) := by
  intro u net cluster group topic
  refine ⟨?_, ?_, ?_, ?_, ?_, ?_, ?_, ?_⟩
  · intro body r h hd he
    rw [ListClusters_eq, opFromResp_remote_error u net _ _ _ body r h hd he]
  · intro body r h hd he
    rw [ClusterDetails_eq, opFromResp_remote_error u net _ _ _ body r h hd he]
  · intro body r h hd he
    rw [ListConsumers_eq, opFromResp_remote_error u net _ _ _ body r h hd he]
  · intro body r h hd he
    rw [ListConsumerTopics_eq,
      opFromResp_remote_error u net _ _ _ body r h hd he]
  · intro body r h hd he
    rw [ConsumerGroupTopicDetails_eq,
      opFromResp_remote_error u net _ _ _ body r h hd he]
  · intro body r h hd he
    rw [ConsumerGroupStatus_eq,
      opFromResp_remote_error u net _ _ _ body r h hd he]
  · intro body r h hd he
    rw [ConsumerGroupLag_eq,
      opFromResp_remote_error u net _ _ _ body r h hd he]
  · intro body r h hd he
    rw [ClusterTopicDetails_eq,
      opFromResp_remote_error u net _ _ _ body r h hd he]

/-- Witness for the amended C1 theorem: on a client whose every GET delivers
`{"error": true, "message": "no such cluster"}`, each typed operation returns
no result and the remote error `"no such cluster"`. -/
theorem envelope_error_message_surfaced_witness :
    (BurrowClient.ListClusters
        ⟨Except.ok plainBase, netOf envelopeErrorBody⟩).1
      = (none, some (GoError.remote "no such cluster")) ∧
    (BurrowClient.ClusterDetails
        ⟨Except.ok plainBase, netOf envelopeErrorBody⟩ "c").1
      = (none, some (GoError.remote "no such cluster")) ∧
    (BurrowClient.ListConsumers
        ⟨Except.ok plainBase, netOf envelopeErrorBody⟩ "c").1
      = (none, some (GoError.remote "no such cluster")) ∧
    (BurrowClient.ListConsumerTopics
        ⟨Except.ok plainBase, netOf envelopeErrorBody⟩ "c" "g").1
      = (none, some (GoError.remote "no such cluster")) ∧
    (BurrowClient.ConsumerGroupTopicDetails
        ⟨Except.ok plainBase, netOf envelopeErrorBody⟩ "c" "g" "t").1
      = (none, some (GoError.remote "no such cluster")) ∧
    (BurrowClient.ConsumerGroupStatus
        ⟨Except.ok plainBase, netOf envelopeErrorBody⟩ "c" "g").1
      = (none, some (GoError.remote "no such cluster")) ∧
    (BurrowClient.ConsumerGroupLag
        ⟨Except.ok plainBase, netOf envelopeErrorBody⟩ "c" "g").1
      = (none, some (GoError.remote "no such cluster")) ∧
    (BurrowClient.ClusterTopicDetails
        ⟨Except.ok plainBase, netOf envelopeErrorBody⟩ "c" "t").1
      = (none, some (GoError.remote "no such cluster")) := by
  have h := envelope_error_message_surfaced plainBase (netOf envelopeErrorBody)
    "c" "g" "t"
  refine ⟨h.1 envelopeErrorBody
      ⟨⟨true, "no such cluster"⟩, []⟩ rfl rfl rfl,
    h.2.1 envelopeErrorBody
      ⟨⟨true, "no such cluster"⟩, zeroClusterDetails⟩ rfl rfl rfl,
    h.2.2.1 envelopeErrorBody
      ⟨⟨true, "no such cluster"⟩, []⟩ rfl rfl rfl,
    h.2.2.2.1 envelopeErrorBody
      ⟨⟨true, "no such cluster"⟩, []⟩ rfl rfl rfl,
    h.2.2.2.2.1 envelopeErrorBody
      ⟨⟨true, "no such cluster"⟩, []⟩ rfl rfl rfl,
    h.2.2.2.2.2.1 envelopeErrorBody
      ⟨⟨true, "no such cluster"⟩, zeroConsumerGroupStatus⟩ rfl rfl rfl,
    h.2.2.2.2.2.2.1 envelopeErrorBody
      ⟨⟨true, "no such cluster"⟩, zeroConsumerGroupStatus⟩ rfl rfl rfl,
    h.2.2.2.2.2.2.2 envelopeErrorBody
      ⟨⟨true, "no such cluster"⟩, []⟩ rfl rfl rfl⟩

/-- C5: when the GET cannot be completed, `getJsonReq` returns the transport
error wrapping the underlying failure without ever invoking the JSON decoder
— its outcome is the same for every decoder and no body event occurs — and
every typed operation surfaces that transport error with no result. -/
theorem transport_error_isolation :
    (∀ (α : Type) (net : Net) (ep : String) (dec : Json → Option α)
        (e : String),
      net ep = Except.error e →
      getJsonReq net ep dec
        = (Except.error (GoError.transport e), [Event.get ep])) ∧
    (∀ (u : GoUrl) (net : Net) (cluster group topic e : String),
      (net (builtUrl u "/v2/kafka") = Except.error e →
        BurrowClient.ListClusters ⟨Except.ok u, net⟩
          = ((none, some (GoError.transport e)),
              [Event.get (builtUrl u "/v2/kafka")])) ∧
      (net (builtUrl u ("/v2/kafka/" ++ cluster)) = Except.error e →
        BurrowClient.ClusterDetails ⟨Except.ok u, net⟩ cluster
          = ((none, some (GoError.transport e)),
              [Event.get (builtUrl u ("/v2/kafka/" ++ cluster))])) ∧
      (net (builtUrl u ("/v2/kafka/" ++ cluster ++ "/consumer"))
          = Except.error e →
        BurrowClient.ListConsumers ⟨Except.ok u, net⟩ cluster
          = ((none, some (GoError.transport e)),
              [Event.get (builtUrl u ("/v2/kafka/" ++ cluster ++ "/consumer"))])) ∧
      (net (builtUrl u
            ("/v2/kafka/" ++ cluster ++ "/consumer/" ++ group ++ "/topic"))
          = Except.error e →
        BurrowClient.ListConsumerTopics ⟨Except.ok u, net⟩ cluster group
          = ((none, some (GoError.transport e)),
              [Event.get (builtUrl u
                ("/v2/kafka/" ++ cluster ++ "/consumer/" ++ group
                  ++ "/topic"))])) ∧
      (net (builtUrl u
            ("/v2/kafka/" ++ cluster ++ "/consumer/" ++ group
              ++ "/topic/" ++ topic))
          = Except.error e →
        BurrowClient.ConsumerGroupTopicDetails ⟨Except.ok u, net⟩ cluster
            group topic
          = ((none, some (GoError.transport e)),
              [Event.get (builtUrl u
                ("/v2/kafka/" ++ cluster ++ "/consumer/" ++ group
                  ++ "/topic/" ++ topic))])) ∧
      (net (builtUrl u
            ("/v2/kafka/" ++ cluster ++ "/consumer/" ++ group ++ "/status"))
          = Except.error e →
        BurrowClient.ConsumerGroupStatus ⟨Except.ok u, net⟩ cluster group
          = ((none, some (GoError.transport e)),
              [Event.get (builtUrl u
                ("/v2/kafka/" ++ cluster ++ "/consumer/" ++ group
                  ++ "/status"))])) ∧
      (net (builtUrl u
            ("/v2/kafka/" ++ cluster ++ "/consumer/" ++ group ++ "/lag"))
          = Except.error e →
        BurrowClient.ConsumerGroupLag ⟨Except.ok u, net⟩ cluster group
          = ((none, some (GoError.transport e)),
              [Event.get (builtUrl u
                ("/v2/kafka/" ++ cluster ++ "/consumer/" ++ group
                  ++ "/lag"))])) ∧
      (net (builtUrl u ("/v2/kafka/" ++ cluster ++ "/topic/" ++ topic))
          = Except.error e →
        BurrowClient.ClusterTopicDetails ⟨Except.ok u, net⟩ cluster topic
          = ((none, some (GoError.transport e)),
              [Event.get (builtUrl u
                ("/v2/kafka/" ++ cluster ++ "/topic/" ++ topic))]))) := by
  refine ⟨fun α net ep dec e h => getJsonReq_transport net ep dec e h, ?_⟩
  intro u net cluster group topic e
  refine ⟨?_, ?_, ?_, ?_, ?_, ?_, ?_, ?_⟩
  · intro h
    rw [ListClusters_eq]
    exact opFromResp_transport u net _ _ _ e h
  · intro h
    rw [ClusterDetails_eq]
    exact opFromResp_transport u net _ _ _ e h
  · intro h
    rw [ListConsumers_eq]
    exact opFromResp_transport u net _ _ _ e h
  · intro h
    rw [ListConsumerTopics_eq]
    exact opFromResp_transport u net _ _ _ e h
  · intro h
    rw [ConsumerGroupTopicDetails_eq]
    exact opFromResp_transport u net _ _ _ e h
  · intro h
    rw [ConsumerGroupStatus_eq]
    exact opFromResp_transport u net _ _ _ e h
  · intro h
    rw [ConsumerGroupLag_eq]
    exact opFromResp_transport u net _ _ _ e h
  · intro h
    rw [ClusterTopicDetails_eq]
    exact opFromResp_transport u net _ _ _ e h

/-- Witness for the C5 theorem: on a client whose every GET fails with
`"connection refused"`, `getJsonReq` and each typed operation return the
transport error. -/
theorem transport_error_isolation_witness :
    getJsonReq netRefused "http://host:8000/v2/kafka" decClustersResp
      = (Except.error (GoError.transport "connection refused"),
          [Event.get "http://host:8000/v2/kafka"]) ∧
    (BurrowClient.ListClusters ⟨Except.ok plainBase, netRefused⟩).1
      = (none, some (GoError.transport "connection refused")) ∧
    (BurrowClient.ConsumerGroupStatus ⟨Except.ok plainBase, netRefused⟩
        "c" "g").1
      = (none, some (GoError.transport "connection refused")) := by
  have h := transport_error_isolation
  refine ⟨h.1 ClustersResp netRefused "http://host:8000/v2/kafka"
      decClustersResp "connection refused" rfl, ?_, ?_⟩
  · rw [(h.2 plainBase netRefused "c" "g" "t" "connection refused").1 rfl]
  · rw [(h.2 plainBase netRefused "c" "g" "t"
      "connection refused").2.2.2.2.2.1 rfl]

/-- C3: for every typed operation with a delivered body, the operation's
error is the JSON decode error exactly when the body fails to decode into
the operation's typed shape (it is not valid JSON, or does not match the
shape) — and the decode error is distinct in kind from the transport error
and from the remote-logical error. -/
theorem decode_error_isolation :
    (∀ (e m : String),
      GoError.decodeFail ≠ GoError.transport e ∧
        GoError.decodeFail ≠ GoError.remote m) ∧
    (∀ (u : GoUrl) (net : Net) (cluster group topic : String) (body : Body),
      (net (builtUrl u "/v2/kafka") = Except.ok body →
        ((BurrowClient.ListClusters ⟨Except.ok u, net⟩).1.2
            = some GoError.decodeFail
          ↔ decodeInto decClustersResp body = none)) ∧
      (net (builtUrl u ("/v2/kafka/" ++ cluster)) = Except.ok body →
        ((BurrowClient.ClusterDetails ⟨Except.ok u, net⟩ cluster).1.2
            = some GoError.decodeFail
          ↔ decodeInto decClusterDetailsResp body = none)) ∧
      (net (builtUrl u ("/v2/kafka/" ++ cluster ++ "/consumer"))
          = Except.ok body →
        ((BurrowClient.ListConsumers ⟨Except.ok u, net⟩ cluster).1.2
            = some GoError.decodeFail
          ↔ decodeInto decConsumerGroupsResp body = none)) ∧
      (net (builtUrl u
            ("/v2/kafka/" ++ cluster ++ "/consumer/" ++ group ++ "/topic"))
          = Except.ok body →
        ((BurrowClient.ListConsumerTopics ⟨Except.ok u, net⟩ cluster
              group).1.2
            = some GoError.decodeFail
          ↔ decodeInto decConsumerGroupTopicsResp body = none)) ∧
      (net (builtUrl u
            ("/v2/kafka/" ++ cluster ++ "/consumer/" ++ group
              ++ "/topic/" ++ topic))
          = Except.ok body →
        ((BurrowClient.ConsumerGroupTopicDetails ⟨Except.ok u, net⟩ cluster
              group topic).1.2
            = some GoError.decodeFail
          ↔ decodeInto decConsumerGroupTopicDetailsResp body = none)) ∧
      (net (builtUrl u
            ("/v2/kafka/" ++ cluster ++ "/consumer/" ++ group ++ "/status"))
          = Except.ok body →
        ((BurrowClient.ConsumerGroupStatus ⟨Except.ok u, net⟩ cluster
              group).1.2
            = some GoError.decodeFail
          ↔ decodeInto decConsumerGroupStatusResp body = none)) ∧
      (net (builtUrl u
            ("/v2/kafka/" ++ cluster ++ "/consumer/" ++ group ++ "/lag"))
          = Except.ok body →
        ((BurrowClient.ConsumerGroupLag ⟨Except.ok u, net⟩ cluster group).1.2
            = some GoError.decodeFail
          ↔ decodeInto decConsumerGroupStatusResp body = none)) ∧
      (net (builtUrl u ("/v2/kafka/" ++ cluster ++ "/topic/" ++ topic))
          = Except.ok body →
        ((BurrowClient.ClusterTopicDetails ⟨Except.ok u, net⟩ cluster
              topic).1.2
            = some GoError.decodeFail
          ↔ decodeInto decClusterTopicDetailsResp body = none))) := by
  refine ⟨fun e m => ⟨by simp, by simp⟩, ?_⟩
  intro u net cluster group topic body
  refine ⟨?_, ?_, ?_, ?_, ?_, ?_, ?_, ?_⟩
  · intro h
    rw [ListClusters_eq]
    exact opFromResp_decodeFail_iff u net _ _ _ body h
  · intro h
    rw [ClusterDetails_eq]
    exact opFromResp_decodeFail_iff u net _ _ _ body h
  · intro h
    rw [ListConsumers_eq]
    exact opFromResp_decodeFail_iff u net _ _ _ body h
  · intro h
    rw [ListConsumerTopics_eq]
    exact opFromResp_decodeFail_iff u net _ _ _ body h
  · intro h
    rw [ConsumerGroupTopicDetails_eq]
    exact opFromResp_decodeFail_iff u net _ _ _ body h
  · intro h
    rw [ConsumerGroupStatus_eq]
    exact opFromResp_decodeFail_iff u net _ _ _ body h
  · intro h
    rw [ConsumerGroupLag_eq]
    exact opFromResp_decodeFail_iff u net _ _ _ body h
  · intro h
    rw [ClusterTopicDetails_eq]
    exact opFromResp_decodeFail_iff u net _ _ _ body h

/-- Witness for the C3 theorem: on a client whose every GET delivers a body
that is not valid JSON, list-clusters and consumer-group-status fail with the
decode error, and that error differs in kind from a transport and a remote
error. -/
theorem decode_error_isolation_witness :
    (BurrowClient.ListClusters
        ⟨Except.ok plainBase, netOf Body.malformed⟩).1.2
      = some GoError.decodeFail ∧
    (BurrowClient.ConsumerGroupStatus
        ⟨Except.ok plainBase, netOf Body.malformed⟩ "c" "g").1.2
      = some GoError.decodeFail ∧
    GoError.decodeFail ≠ GoError.transport "connection refused" ∧
    GoError.decodeFail ≠ GoError.remote "no such cluster" := by
  have h := decode_error_isolation
  have hops := h.2 plainBase (netOf Body.malformed) "c" "g" "t" Body.malformed
  exact ⟨(hops.1 rfl).mpr rfl, (hops.2.2.2.2.2.1 rfl).mpr rfl,
    (h.1 "connection refused" "no such cluster").1,
    (h.1 "connection refused" "no such cluster").2⟩

/-- C7: the health check returns `(true, nil)` exactly when the GET
completes — whatever body is delivered, a non-JSON one included, since it
performs no JSON decode and no envelope check — and returns `false` with the
error exactly when URL construction or the GET itself fails. -/
theorem healthcheck_independent_of_body :
    (∀ (e : String) (net : Net),
      BurrowClient.HealthCheck ⟨Except.error e, net⟩
        = ((false, some (GoError.urlParse e)), [])) ∧
    (∀ (u : GoUrl) (net : Net) (e : String),
      net (builtUrl u "/burrow/admin") = Except.error e →
      BurrowClient.HealthCheck ⟨Except.ok u, net⟩
        = ((false, some (GoError.transport e)),
            [Event.get (builtUrl u "/burrow/admin")])) ∧
    (∀ (u : GoUrl) (net : Net) (body : Body),
      net (builtUrl u "/burrow/admin") = Except.ok body →
      BurrowClient.HealthCheck ⟨Except.ok u, net⟩
        = ((true, none), [Event.get (builtUrl u "/burrow/admin")])) := by
  refine ⟨fun e net => rfl, ?_, ?_⟩
  · intro u net e h
    unfold BurrowClient.HealthCheck
    simp only [buildUrl_ok, h]
  · intro u net body h
    unfold BurrowClient.HealthCheck
    simp only [buildUrl_ok, h]

/-- Witness for the C7 theorem: a delivered non-JSON body still yields
`(true, nil)`, and a refused connection yields `false` with the transport
error. -/
theorem healthcheck_independent_of_body_witness :
    BurrowClient.HealthCheck ⟨Except.ok plainBase, netOf Body.malformed⟩
      = ((true, none), [Event.get "http://host:8000/burrow/admin"]) ∧
    BurrowClient.HealthCheck ⟨Except.ok plainBase, netRefused⟩
      = ((false, some (GoError.transport "connection refused")),
          [Event.get "http://host:8000/burrow/admin"]) := by
  have h := healthcheck_independent_of_body
  exact ⟨h.2.2 plainBase (netOf Body.malformed) Body.malformed rfl,
    h.2.1 plainBase netRefused "connection refused" rfl⟩

/-- C9 fails on the code: a completed health-check GET never closes the
delivered response body — `client.go` line 153 discards the response with
`_, err = bc.client.Get(endpoint)` and no `Close` follows — so its trace
holds the GET and no close event, leaking the connection (the `getJsonReq`
paths of every typed operation do close the body on both exits). -/
theorem healthcheck_never_closes_body :
    (BurrowClient.HealthCheck
        ⟨Except.ok plainBase, netOf emptyObjectBody⟩).2
      = [Event.get "http://host:8000/burrow/admin"] ∧
    Event.closeBody "http://host:8000/burrow/admin"
      ∉ (BurrowClient.HealthCheck
          ⟨Except.ok plainBase, netOf emptyObjectBody⟩).2 :=
  ⟨rfl, by decide⟩

/-! ## Zero-value decoding lemmas for C10 -/

theorem decBurrowFields_zero (fields : List (String × Json))
    (he : fields.lookup "error" = none
      ∨ fields.lookup "error" = some (Json.bool false)
      ∨ fields.lookup "error" = some Json.null)
    (hm : fields.lookup "message" = none) :
    decBurrowFields fields = some { error := false, message := "" } := by
  rcases he with he | he | he <;>
    simp [decBurrowFields, getField, he, hm, decBool]

theorem decClustersResp_zero (fields : List (String × Json))
    (he : fields.lookup "error" = none
      ∨ fields.lookup "error" = some (Json.bool false)
      ∨ fields.lookup "error" = some Json.null)
    (hm : fields.lookup "message" = none)
    (hp : fields.lookup "clusters" = none) :
    decClustersResp (Json.obj fields)
      = some { burrow := { error := false, message := "" },
               clusters := [] } := by
  simp [decClustersResp, decBurrowFields_zero fields he hm, getField, hp]

theorem decClusterDetailsResp_zero (fields : List (String × Json))
    (he : fields.lookup "error" = none
      ∨ fields.lookup "error" = some (Json.bool false)
      ∨ fields.lookup "error" = some Json.null)
    (hm : fields.lookup "message" = none)
    (hp : fields.lookup "cluster" = none) :
    decClusterDetailsResp (Json.obj fields)
      = some { burrow := { error := false, message := "" },
               cluster := zeroClusterDetails } := by
  simp [decClusterDetailsResp, decBurrowFields_zero fields he hm, getField, hp]

theorem decConsumerGroupsResp_zero (fields : List (String × Json))
    (he : fields.lookup "error" = none
      ∨ fields.lookup "error" = some (Json.bool false)
      ∨ fields.lookup "error" = some Json.null)
    (hm : fields.lookup "message" = none)
    (hp : fields.lookup "consumers" = none) :
    decConsumerGroupsResp (Json.obj fields)
      = some { burrow := { error := false, message := "" },
               consumerGroups := [] } := by
  simp [decConsumerGroupsResp, decBurrowFields_zero fields he hm, getField, hp]

theorem decConsumerGroupTopicsResp_zero (fields : List (String × Json))
    (he : fields.lookup "error" = none
      ∨ fields.lookup "error" = some (Json.bool false)
      ∨ fields.lookup "error" = some Json.null)
    (hm : fields.lookup "message" = none)
    (hp : fields.lookup "topics" = none) :
    decConsumerGroupTopicsResp (Json.obj fields)
      = some { burrow := { error := false, message := "" }, topics := [] } := by
  simp [decConsumerGroupTopicsResp, decBurrowFields_zero fields he hm,
    getField, hp]

theorem decConsumerGroupTopicDetailsResp_zero (fields : List (String × Json))
    (he : fields.lookup "error" = none
      ∨ fields.lookup "error" = some (Json.bool false)
      ∨ fields.lookup "error" = some Json.null)
    (hm : fields.lookup "message" = none)
    (hp : fields.lookup "offsets" = none) :
    decConsumerGroupTopicDetailsResp (Json.obj fields)
      = some { burrow := { error := false, message := "" },
               offsets := [] } := by
  simp [decConsumerGroupTopicDetailsResp, decBurrowFields_zero fields he hm,
    getField, hp]

theorem decConsumerGroupStatusResp_zero (fields : List (String × Json))
    (he : fields.lookup "error" = none
      ∨ fields.lookup "error" = some (Json.bool false)
      ∨ fields.lookup "error" = some Json.null)
    (hm : fields.lookup "message" = none)
    (hp : fields.lookup "status" = none) :
    decConsumerGroupStatusResp (Json.obj fields)
      = some { burrow := { error := false, message := "" },
               status := zeroConsumerGroupStatus } := by
  simp [decConsumerGroupStatusResp, decBurrowFields_zero fields he hm,
    getField, hp]

theorem decClusterTopicDetailsResp_zero (fields : List (String × Json))
    (he : fields.lookup "error" = none
      ∨ fields.lookup "error" = some (Json.bool false)
      ∨ fields.lookup "error" = some Json.null)
    (hm : fields.lookup "message" = none)
    (hp : fields.lookup "offsets" = none) :
    decClusterTopicDetailsResp (Json.obj fields)
      = some { burrow := { error := false, message := "" },
               offsets := [] } := by
  simp [decClusterTopicDetailsResp, decBurrowFields_zero fields he hm,
    getField, hp]

/-- C10: for every well-formed JSON object body whose `error` field is
`false`, `null` or absent and whose `message` and payload fields are absent,
every typed operation succeeds with the envelope and payload at their zero
values — empty message, empty lists, zero numbers; in particular the body
`{}` yields a successful zero-valued result and no error.  Result records
are written `⟨⟨error, message⟩, payload⟩`. -/
theorem empty_envelope_decodes_to_zero_values :
    ∀ (u : GoUrl) (net : Net) (cluster group topic : String)
      (fields : List (String × Json)),
    (fields.lookup "error" = none
      ∨ fields.lookup "error" = some (Json.bool false)
      ∨ fields.lookup "error" = some Json.null) →
    fields.lookup "message" = none →
    fields.lookup "clusters" = none →
    fields.lookup "cluster" = none →
    fields.lookup "consumers" = none →
    fields.lookup "topics" = none →
    fields.lookup "offsets" = none →
    fields.lookup "status" = none →
    (net (builtUrl u "/v2/kafka") = Except.ok (Body.json (Json.obj fields)) →
      BurrowClient.ListClusters ⟨Except.ok u, net⟩
        = ((some ⟨⟨false, ""⟩, []⟩, none),
            [Event.get (builtUrl u "/v2/kafka"),
              Event.closeBody (builtUrl u "/v2/kafka")])) ∧
    (net (builtUrl u ("/v2/kafka/" ++ cluster))
        = Except.ok (Body.json (Json.obj fields)) →
      BurrowClient.ClusterDetails ⟨Except.ok u, net⟩ cluster
        = ((some ⟨⟨false, ""⟩, zeroClusterDetails⟩, none),
            [Event.get (builtUrl u ("/v2/kafka/" ++ cluster)),
              Event.closeBody (builtUrl u ("/v2/kafka/" ++ cluster))])) ∧
    (net (builtUrl u ("/v2/kafka/" ++ cluster ++ "/consumer"))
        = Except.ok (Body.json (Json.obj fields)) →
      BurrowClient.ListConsumers ⟨Except.ok u, net⟩ cluster
        = ((some ⟨⟨false, ""⟩, []⟩, none),
            [Event.get (builtUrl u ("/v2/kafka/" ++ cluster ++ "/consumer")),
              Event.closeBody
                (builtUrl u ("/v2/kafka/" ++ cluster ++ "/consumer"))])) ∧
    (net (builtUrl u
          ("/v2/kafka/" ++ cluster ++ "/consumer/" ++ group ++ "/topic"))
        = Except.ok (Body.json (Json.obj fields)) →
      BurrowClient.ListConsumerTopics ⟨Except.ok u, net⟩ cluster group
        = ((some ⟨⟨false, ""⟩, []⟩, none),
            [Event.get (builtUrl u
                ("/v2/kafka/" ++ cluster ++ "/consumer/" ++ group ++ "/topic")),
              Event.closeBody (builtUrl u
                ("/v2/kafka/" ++ cluster ++ "/consumer/" ++ group
                  ++ "/topic"))])) ∧
    (net (builtUrl u
          ("/v2/kafka/" ++ cluster ++ "/consumer/" ++ group
            ++ "/topic/" ++ topic))
        = Except.ok (Body.json (Json.obj fields)) →
      BurrowClient.ConsumerGroupTopicDetails ⟨Except.ok u, net⟩ cluster group
          topic
        = ((some ⟨⟨false, ""⟩, []⟩, none),
            [Event.get (builtUrl u
                ("/v2/kafka/" ++ cluster ++ "/consumer/" ++ group
                  ++ "/topic/" ++ topic)),
              Event.closeBody (builtUrl u
                ("/v2/kafka/" ++ cluster ++ "/consumer/" ++ group
                  ++ "/topic/" ++ topic))])) ∧
    (net (builtUrl u
          ("/v2/kafka/" ++ cluster ++ "/consumer/" ++ group ++ "/status"))
        = Except.ok (Body.json (Json.obj fields)) →
      BurrowClient.ConsumerGroupStatus ⟨Except.ok u, net⟩ cluster group
        = ((some ⟨⟨false, ""⟩, zeroConsumerGroupStatus⟩, none),
            [Event.get (builtUrl u
                ("/v2/kafka/" ++ cluster ++ "/consumer/" ++ group
                  ++ "/status")),
              Event.closeBody (builtUrl u
                ("/v2/kafka/" ++ cluster ++ "/consumer/" ++ group
                  ++ "/status"))])) ∧
    (net (builtUrl u
          ("/v2/kafka/" ++ cluster ++ "/consumer/" ++ group ++ "/lag"))
        = Except.ok (Body.json (Json.obj fields)) →
      BurrowClient.ConsumerGroupLag ⟨Except.ok u, net⟩ cluster group
        = ((some ⟨⟨false, ""⟩, zeroConsumerGroupStatus⟩, none),
            [Event.get (builtUrl u
                ("/v2/kafka/" ++ cluster ++ "/consumer/" ++ group ++ "/lag")),
              Event.closeBody (builtUrl u
                ("/v2/kafka/" ++ cluster ++ "/consumer/" ++ group
                  ++ "/lag"))])) ∧
    (net (builtUrl u ("/v2/kafka/" ++ cluster ++ "/topic/" ++ topic))
        = Except.ok (Body.json (Json.obj fields)) →
      BurrowClient.ClusterTopicDetails ⟨Except.ok u, net⟩ cluster topic
        = ((some ⟨⟨false, ""⟩, []⟩, none),
            [Event.get (builtUrl u
                ("/v2/kafka/" ++ cluster ++ "/topic/" ++ topic)),
              Event.closeBody (builtUrl u
                ("/v2/kafka/" ++ cluster ++ "/topic/" ++ topic))])) := by
  intro u net cluster group topic fields he hm h1 h2 h3 h4 h5 h6
  refine ⟨?_, ?_, ?_, ?_, ?_, ?_, ?_, ?_⟩
  · intro h
    rw [ListClusters_eq]
    exact opFromResp_success u net _ _ _ _ _ h
      (by simp [decodeInto, decClustersResp_zero fields he hm h1]) rfl
  · intro h
    rw [ClusterDetails_eq]
    exact opFromResp_success u net _ _ _ _ _ h
      (by simp [decodeInto, decClusterDetailsResp_zero fields he hm h2]) rfl
  · intro h
    rw [ListConsumers_eq]
    exact opFromResp_success u net _ _ _ _ _ h
      (by simp [decodeInto, decConsumerGroupsResp_zero fields he hm h3]) rfl
  · intro h
    rw [ListConsumerTopics_eq]
    exact opFromResp_success u net _ _ _ _ _ h
      (by simp [decodeInto, decConsumerGroupTopicsResp_zero fields he hm h4])
      rfl
  · intro h
    rw [ConsumerGroupTopicDetails_eq]
    exact opFromResp_success u net _ _ _ _ _ h
      (by simp [decodeInto,
        decConsumerGroupTopicDetailsResp_zero fields he hm h5]) rfl
  · intro h
    rw [ConsumerGroupStatus_eq]
    exact opFromResp_success u net _ _ _ _ _ h
      (by simp [decodeInto, decConsumerGroupStatusResp_zero fields he hm h6])
      rfl
  · intro h
    rw [ConsumerGroupLag_eq]
    exact opFromResp_success u net _ _ _ _ _ h
      (by simp [decodeInto, decConsumerGroupStatusResp_zero fields he hm h6])
      rfl
  · intro h
    rw [ClusterTopicDetails_eq]
    exact opFromResp_success u net _ _ _ _ _ h
      (by simp [decodeInto, decClusterTopicDetailsResp_zero fields he hm h5])
      rfl

/-- Witness for the C10 theorem: on a client whose every GET delivers `{}`,
list-clusters and consumer-group-status return zero-valued results and no
error. -/
theorem empty_envelope_decodes_to_zero_values_witness :
    BurrowClient.ListClusters ⟨Except.ok plainBase, netOf emptyObjectBody⟩
      = ((some ⟨⟨false, ""⟩, []⟩, none),
          [Event.get "http://host:8000/v2/kafka",
            Event.closeBody "http://host:8000/v2/kafka"]) ∧
    BurrowClient.ConsumerGroupStatus
        ⟨Except.ok plainBase, netOf emptyObjectBody⟩ "c" "g"
      = ((some ⟨⟨false, ""⟩, zeroConsumerGroupStatus⟩, none),
          [Event.get "http://host:8000/v2/kafka/c/consumer/g/status",
            Event.closeBody "http://host:8000/v2/kafka/c/consumer/g/status"]) := by
  have h := empty_envelope_decodes_to_zero_values plainBase
    (netOf emptyObjectBody) "c" "g" "t" [] (Or.inl rfl) rfl rfl rfl rfl rfl
    rfl rfl
  exact ⟨h.1 rfl, h.2.2.2.2.2.1 rfl⟩
